import Mathlib

/-!
Verification development for the HealthLab backend (main.py / schemas.py).

The Python source is embedded shallowly:

* The Mongo document store (database.py, not part of the sources here) is
  modelled from the spec as a record of per-collection lists together with a
  counter producing fresh identifiers; `create` appends a document and bumps
  the counter, `find_one` is the first match in insertion order, `count` is
  the list length.  ObjectId round-tripping is modelled as the identity on
  the string identifiers.
* Python floats are modelled as rationals; `round(x, 2)` is modelled by
  round-half-to-even at two decimals, matching the Python builtin.
* `datetime` values are modelled as abstract `Nat` timestamps;
  `datetime.fromisoformat` and `strftime` are passed to `chat` as explicit
  function parameters, since their innards are library code the flow never
  inspects.
* Python `str.lower`, `str.upper`, `str.strip` and the substring operator
  `in` are given directly on the underlying character lists (ASCII range,
  the only range the keyword tables use).
-/

set_option maxHeartbeats 4000000

/-- Python substring test `pat in hay` on character lists. -/
def listSubstr (pat : List Char) : List Char → Bool
  | [] => pat.isEmpty
  | c :: rest => pat.isPrefixOf (c :: rest) || listSubstr pat rest

/-- Python `pat in hay` for strings. -/
def strContains (hay pat : String) : Bool :=
  listSubstr pat.data hay.data

/-- ASCII lower-casing of one character, as Python str.lower does on ASCII. -/
def lowerChar (c : Char) : Char :=
  if 'A' ≤ c ∧ c ≤ 'Z' then Char.ofNat (c.toNat + 32) else c

/-- Python str.lower (ASCII range). -/
def pyLower (s : String) : String :=
  ⟨s.data.map lowerChar⟩

/-- ASCII upper-casing of one character, as Python str.upper does on ASCII. -/
def upperChar (c : Char) : Char :=
  if 'a' ≤ c ∧ c ≤ 'z' then Char.ofNat (c.toNat - 32) else c

/-- Python str.upper (ASCII range). -/
def pyUpper (s : String) : String :=
  ⟨s.data.map upperChar⟩

/-- Python whitespace characters stripped by str.strip. -/
def pySpace (c : Char) : Bool :=
  c == ' ' || c == '\t' || c == '\n' || c == '\r' || c == '\x0b' || c == '\x0c'

/-- Python str.strip with no argument. -/
def pyStrip (s : String) : String :=
  ⟨((s.data.dropWhile pySpace).reverse.dropWhile pySpace).reverse⟩

/-- Python str applied to an optional string: `str(None)` is the text None. -/
def pyStr : Option String → String
  | none => "None"
  | some s => s

/-- Python round-half-to-even of a rational to an integer. -/
def roundHalfEven (q : ℚ) : ℤ :=
  if q - ⌊q⌋ < 1 / 2 then ⌊q⌋
  else if 1 / 2 < q - ⌊q⌋ then ⌊q⌋ + 1
  else if ⌊q⌋ % 2 == 0 then ⌊q⌋ else ⌊q⌋ + 1

/-- Python `round(q, 2)` on the rational model of floats. -/
def pyRound2 (q : ℚ) : ℚ :=
  (roundHalfEven (q * 100) : ℚ) / 100

/-- Document of the `test` collection (schemas.Test / CreateTest). -/
structure TestDoc where
  name : String
  code : String
  category : String
  price : ℚ
  description : Option String
  preparation : Option String
deriving DecidableEq

/-- Document of the `booking` collection as written by create_booking. -/
structure BookingDoc where
  id : String
  user_id : String
  test_code : String
  scheduled_at : Nat
  address : Option String
  promo_code : Option String
  status : String
  payment_status : String
  price : Option ℚ
deriving DecidableEq

/-- Document of the `user` collection (schemas.User plus its identifier). -/
structure UserDoc where
  id : String
  name : String
  email : String
  phone : Option String
  role : String
  pin : Option String
  is_active : Bool
deriving DecidableEq

/-- Document of the `report` collection (schemas.Report). -/
structure ReportDoc where
  booking_id : String
  test_code : String
  url : Option String
  summary : Option String
deriving DecidableEq

/-- Document of the `promo` collection (schemas.Promo). -/
structure PromoDoc where
  code : String
  type : String
  value : ℚ
  active : Bool
  note : Option String
deriving DecidableEq

/-- The four reply shapes produced by the chat endpoint. -/
inductive Reply where
  | actionRequired (action : String) (message : String)
  | bookingConfirmed (message : String) (bookingId : String)
  | suggestions (message : String) (tests : List TestDoc) (cta : String)
  | text (message : String)
deriving DecidableEq

/-- The `message` field of a reply dict, as read by _save_assistant. -/
def replyMessage : Reply → String
  | .actionRequired _ m => m
  | .bookingConfirmed m _ => m
  | .suggestions m _ _ => m
  | .text m => m

/-- Document of the `message` collection (schemas.Message). -/
structure MessageDoc where
  user_id : String
  role : String
  text : String
  context : Option Reply
deriving DecidableEq

/-- Modelled from the spec: the storage collaborator of database.py (not under
src) is a document store with per-collection lists in insertion order and a
counter supplying generated identifiers. -/
structure DB where
  tests : List TestDoc
  bookings : List BookingDoc
  users : List UserDoc
  reports : List ReportDoc
  promos : List PromoDoc
  messages : List MessageDoc
  nextId : Nat
deriving DecidableEq

/-- HTTPException statuses raised by main.py: 404, 401, 400, 503. -/
inductive ApiError where
  | notFound (detail : String)
  | unauthorized (detail : String)
  | badRequest (detail : String)
  | unavailable (detail : String)
deriving DecidableEq

/-- Detail string of an error, the payload `str(e)` reads. -/
def ApiError.detail : ApiError → String
  | .notFound d => d
  | .unauthorized d => d
  | .badRequest d => d
  | .unavailable d => d

/-- Tests whether an error is the NotFound variant. -/
def ApiError.isNotFound : ApiError → Bool
  | .notFound _ => true
  | _ => false

/-- The SYMPTOM_TO_TESTS table of main.py. -/
def SYMPTOM_TO_TESTS : List (String × List String) :=
  [("dizzy", ["CBC", "IRON"]),
   ("fever", ["CBC", "CRP"]),
   ("fatigue", ["IRON", "B12"]),
   ("jaundice", ["LFT"]),
   ("diabetes", ["FBS", "HBA1C"])]

/-- The DEFAULT_TESTS seed list of main.py. -/
def DEFAULT_TESTS : List TestDoc :=
  [⟨"Complete Blood Count", "CBC", "Hematology", 20.0, none, some "No fasting required"⟩,
   ⟨"Iron Studies", "IRON", "Hematology", 25.0, none, some "8-10 hours fasting preferred"⟩,
   ⟨"Liver Function Test", "LFT", "Biochemistry", 30.0, none, some "No alcohol 24h before"⟩,
   ⟨"C-Reactive Protein", "CRP", "Biochemistry", 22.0, none, some "No special preparation"⟩,
   ⟨"Vitamin B12", "B12", "Vitamins", 28.0, none, some "Fasting 6-8 hours"⟩,
   ⟨"Fasting Blood Sugar", "FBS", "Diabetes", 12.0, none, some "Overnight fasting"⟩,
   ⟨"HbA1c", "HBA1C", "Diabetes", 18.0, none, some "No fasting required"⟩]

/-- The secondary keyword list of the chat symptom heuristics. -/
def SECONDARY_KEYWORDS : List String :=
  ["tired", "weak", "cold", "cough", "pain", "yellow", "sugar"]

/-- Modelled from the spec: create_document of database.py appends the
document and returns a fresh generated identifier from the counter.  This
instance inserts a message document (messages carry no identifier field the
flow ever reads). -/
def createMessageDoc (d : DB) (m : MessageDoc) : DB :=
  { d with messages := d.messages ++ [m], nextId := d.nextId + 1 }

/-- Modelled from the spec: create_document for the test collection. -/
def createTestDoc (d : DB) (t : TestDoc) : DB :=
  { d with tests := d.tests ++ [t], nextId := d.nextId + 1 }

/-- ensure_seed_tests of main.py: seed the catalog when the test collection
is empty; do nothing when storage is absent. -/
def ensure_seed_tests (st : Option DB) : Option DB :=
  match st with
  | none => none
  | some d =>
    if d.tests.length == 0 then
      some (DEFAULT_TESTS.foldl createTestDoc d)
    else
      some d

/-- Request model CreateBooking of main.py (scheduled_at as a timestamp). -/
structure CreateBooking where
  user_id : String
  test_code : String
  scheduled_at : Nat
  address : Option String
  promo_code : Option String
deriving DecidableEq

/-- The response dict of create_booking. -/
structure BookingResult where
  id : String
  message : String
deriving DecidableEq

/-- The booking document create_booking persists: the payload fields plus
status, payment_status and the snapshotted price. -/
def mkBookingDoc (nid : Nat) (cb : CreateBooking) (price : Option ℚ) : BookingDoc :=
  { id := Nat.repr nid
    user_id := cb.user_id
    test_code := cb.test_code
    scheduled_at := cb.scheduled_at
    address := cb.address
    promo_code := cb.promo_code
    status := "booked"
    payment_status := "pending"
    price := price }

/-- create_booking of main.py.  With storage present, an unknown test code
fails 404 before anything is written; otherwise the price is snapshotted from
the catalog and one booking document is inserted.  With storage absent the
price is left null and nothing can be recorded (database.py is not under src;
the spec says the operation does not fail and an identifier is returned). -/
def create_booking (payload : CreateBooking) (st : Option DB) :
    Except ApiError BookingResult × Option DB :=
  match st with
  | some d =>
    match d.tests.find? (fun t => t.code == payload.test_code) with
    | none => (.error (.notFound "Test not found"), some d)
    | some t =>
      (.ok ⟨Nat.repr d.nextId, "Booking created"⟩,
       some { d with
                bookings := d.bookings ++ [mkBookingDoc d.nextId payload (some t.price)],
                nextId := d.nextId + 1 })
  | none => (.ok ⟨Nat.repr 0, "Booking created"⟩, none)

/-- Request model ApplyPromo of main.py. -/
structure ApplyPromo where
  code : String
  price : ℚ

/-- The response dict of apply_promo. -/
structure PromoResult where
  discount : ℚ
  total : ℚ
  message : String
deriving DecidableEq

/-- The stored-promo lookup apply_promo performs when no hardcoded code
matched: find_one on code and active, none when storage is absent. -/
def promoLookup (st : Option DB) (code : String) : Option PromoDoc :=
  match st with
  | some d => d.promos.find? (fun pr => pr.code == code && pr.active)
  | none => none

/-- apply_promo of main.py. -/
def apply_promo (payload : ApplyPromo) (st : Option DB) : PromoResult :=
  let code := pyUpper (pyStrip payload.code)
  let price := payload.price
  let dm : ℚ × String :=
    if code == "NEWUSER10" then
      (pyRound2 (price * 0.10), "New user 10% discount applied")
    else if code == "MEMBER5" then
      (pyRound2 (price * 0.05), "Membership 5% discount applied")
    else
      match promoLookup st code with
      | some promo =>
        if promo.type == "flat" then
          (promo.value, (promo.note.getD "Promo applied"))
        else
          (pyRound2 (price * promo.value / 100), (promo.note.getD "Promo applied"))
      | none => (0, "")
  let total := max (price - dm.1) 0
  { discount := dm.1
    total := total
    message := if dm.2 == "" then "No promo applied" else dm.2 }

/-- Request model ViewReport of main.py. -/
structure ViewReport where
  booking_id : String
  pin : String

/-- view_report of main.py.  The ObjectId conversions are modelled as the
identity on identifier strings, so the length-24 dispatch of the user lookup
collapses to a single identifier comparison. -/
def view_report (payload : ViewReport) (st : Option DB) : Except ApiError ReportDoc :=
  match st with
  | none => .error (.unavailable "Database not available")
  | some d =>
    match d.bookings.find? (fun b => b.id == payload.booking_id) with
    | none => .error (.notFound "Booking not found")
    | some booking =>
      match d.users.find? (fun u => u.id == booking.user_id) with
      | none => .error (.unauthorized "Invalid PIN")
      | some user =>
        if pyStr user.pin != payload.pin then
          .error (.unauthorized "Invalid PIN")
        else
          match d.reports.find? (fun r => r.booking_id == payload.booking_id) with
          | none => .error (.notFound "Report not available yet")
          | some report => .ok report

/-- The direct table scan of the symptom classifier: the loop over
SYMPTOM_TO_TESTS accumulating a set. -/
def directSuggested (text : String) : Finset String :=
  SYMPTOM_TO_TESTS.foldl
    (fun acc p => if strContains text p.1 then acc ∪ p.2.toFinset else acc) ∅

/-- The heuristic block of the symptom classifier, updating the accumulated
set in sequence. -/
def heurSuggested (text : String) (s : Finset String) : Finset String :=
  let s := if strContains text "tired" || strContains text "weak" then
      s ∪ {"CBC", "IRON", "B12"} else s
  let s := if strContains text "fever" || strContains text "cold" || strContains text "cough" then
      s ∪ {"CBC", "CRP"} else s
  let s := if strContains text "yellow" then s ∪ {"LFT"} else s
  let s := if strContains text "sugar" then s ∪ {"FBS", "HBA1C"} else s
  s

/-- The symptom classifier inside chat: direct table scan, then the
secondary-keyword heuristics when nothing direct matched.  The input is the
already lower-cased message text. -/
def symptomTests (text : String) : Finset String :=
  let direct := directSuggested text
  if direct = ∅ ∧ (SECONDARY_KEYWORDS.any (fun k => strContains text k)) = true then
    heurSuggested text direct
  else
    direct

/-- Reference definition following the claim wording only: the union over all
direct symptom keywords occurring in the lower-cased text of their mapped
test-code sets; if that union is empty but the text contains any secondary
keyword, the union of the four independent heuristic rules, each applied
whenever its trigger appears. -/
def symptomTestsSpec (raw : String) : Finset String :=
  let text := pyLower raw
  let direct :=
    (if strContains text "dizzy" then ({"CBC", "IRON"} : Finset String) else ∅) ∪
    (if strContains text "fever" then ({"CBC", "CRP"} : Finset String) else ∅) ∪
    (if strContains text "fatigue" then ({"IRON", "B12"} : Finset String) else ∅) ∪
    (if strContains text "jaundice" then ({"LFT"} : Finset String) else ∅) ∪
    (if strContains text "diabetes" then ({"FBS", "HBA1C"} : Finset String) else ∅)
  if direct ≠ ∅ then direct
  else if (SECONDARY_KEYWORDS.any (fun k => strContains text k)) = true then
    (if strContains text "tired" || strContains text "weak" then
      ({"CBC", "IRON", "B12"} : Finset String) else ∅) ∪
    (if strContains text "fever" || strContains text "cold" || strContains text "cough" then
      ({"CBC", "CRP"} : Finset String) else ∅) ∪
    (if strContains text "yellow" then ({"LFT"} : Finset String) else ∅) ∪
    (if strContains text "sugar" then ({"FBS", "HBA1C"} : Finset String) else ∅)
  else ∅

/-- Request model ChatMessage of main.py; the payload dict is modelled by the
four keys the code reads (a supplied payload is treated as truthy). -/
structure Payload where
  user_id : Option String
  test_code : Option String
  scheduled_at : Option String
  address : Option String
deriving DecidableEq

/-- Inbound chat message. -/
structure ChatMsg where
  user_id : Option String
  text : String
  intent : Option String
  payload : Option Payload
deriving DecidableEq

/-- The report-access condition of the chat dispatcher on lower-cased text. -/
def reportIntent (text : String) : Bool :=
  strContains text "report" && (strContains text "view" || strContains text "show")

/-- The user-turn log write at the top of chat: only with storage present and
a truthy user_id. -/
def logUserD (msg : ChatMsg) (d : DB) : DB :=
  match msg.user_id with
  | some uid =>
    if uid == "" then d
    else createMessageDoc d ⟨uid, "user", msg.text, none⟩
  | none => d

/-- The user-turn log write on the optional storage state. -/
def logUser (msg : ChatMsg) (st : Option DB) : Option DB :=
  st.map (logUserD msg)

/-- _save_assistant of main.py. -/
def logAssistantD (msg : ChatMsg) (reply : Reply) (d : DB) : DB :=
  match msg.user_id with
  | some uid =>
    if uid == "" then d
    else createMessageDoc d ⟨uid, "assistant", replyMessage reply, some reply⟩
  | none => d

/-- _save_assistant on the optional storage state. -/
def logAssistant (msg : ChatMsg) (reply : Reply) (st : Option DB) : Option DB :=
  st.map (logAssistantD msg reply)

/-- The structured-booking payload parse of chat: fromisoformat on the
scheduled_at entry (absent or unparseable raises) followed by CreateBooking
validation (absent user_id or test_code raises).  The ISO parser is an
explicit parameter. -/
def parsePayload (parseIso : String → Option Nat) (p : Payload) :
    Except String CreateBooking :=
  match p.scheduled_at with
  | none => .error "fromisoformat: argument must be str"
  | some s =>
    match parseIso s with
    | none => .error "Invalid isoformat string"
    | some dt =>
      match p.user_id, p.test_code with
      | some uid, some tc =>
        .ok ⟨uid, tc, dt, p.address, none⟩
      | _, _ => .error "validation error for CreateBooking"

/-- The structured-booking branch of chat.  Any exception inside the try
block, including the 404 of create_booking, is re-raised as a 400 carrying
the exception text. -/
def chatBook (parseIso : String → Option Nat) (fmtDate : Nat → String)
    (msg : ChatMsg) (p : Payload) (st : Option DB) :
    Except ApiError Reply × Option DB :=
  match parsePayload parseIso p with
  | .error e => (.error (.badRequest e), st)
  | .ok cb =>
    match create_booking cb st with
    | (.error e, st1) => (.error (.badRequest e.detail), st1)
    | (.ok result, st1) =>
      let reply := Reply.bookingConfirmed
        ("Your " ++ cb.test_code ++ " is booked for " ++ fmtDate cb.scheduled_at ++ ".")
        result.id
      (.ok reply, logAssistant msg reply st1)

/-- The symptom-suggestion branch and the fallback of chat. -/
def chatSuggest (msg : ChatMsg) (st : Option DB) :
    Except ApiError Reply × Option DB :=
  let suggested := symptomTests (pyLower msg.text)
  if suggested ≠ ∅ then
    let st1 := ensure_seed_tests st
    let tests :=
      match st1 with
      | some d => d.tests.filter (fun t => t.code ∈ suggested)
      | none => DEFAULT_TESTS.filter (fun t => t.code ∈ suggested)
    let reply := Reply.suggestions
      "Here are some recommended tests based on your symptoms:" tests
      "Would you like to book one of these?"
    (.ok reply, logAssistant msg reply st1)
  else
    let reply := Reply.text
      "I can help you book tests, suggest investigations from symptoms, apply promo codes, and fetch your reports securely. Try: \x27I feel dizzy\x27 or \x27Book CBC tomorrow 10am\x27."
    (.ok reply, logAssistant msg reply st)

/-- The dispatch of chat after the user turn has been logged: report-access
first, then the structured-booking intent, then suggestions or fallback. -/
def chatDispatch (parseIso : String → Option Nat) (fmtDate : Nat → String)
    (msg : ChatMsg) (st : Option DB) :
    Except ApiError Reply × Option DB :=
  if reportIntent (pyLower msg.text) then
    let reply := Reply.actionRequired "verify_pin"
      "Please enter your 4-digit PIN to access your reports."
    (.ok reply, logAssistant msg reply st)
  else
    match msg.intent, msg.payload with
    | some i, some p =>
      if i == "book_test" then chatBook parseIso fmtDate msg p st
      else chatSuggest msg st
    | _, _ => chatSuggest msg st

/-- chat of main.py: log the user turn, then dispatch. -/
def chat (parseIso : String → Option Nat) (fmtDate : Nat → String)
    (msg : ChatMsg) (st : Option DB) :
    Except ApiError Reply × Option DB :=
  chatDispatch parseIso fmtDate msg (logUser msg st)

/-- Bookings of the optional storage state. -/
def bookingsOf : Option DB → List BookingDoc
  | none => []
  | some d => d.bookings

/-- Tests of the optional storage state. -/
def testsOf : Option DB → List TestDoc
  | none => []
  | some d => d.tests

/-- Messages of the optional storage state. -/
def messagesOf : Option DB → List MessageDoc
  | none => []
  | some d => d.messages

/-- The assistant turns of the message log. -/
def assistantLog (st : Option DB) : List MessageDoc :=
  (messagesOf st).filter (fun m => m.role == "assistant")

/-- The empty storage state. -/
def DB0 : DB :=
  ⟨[], [], [], [], [], [], 0⟩

/-- Tests whether a report-view outcome is the NotFound variant. -/
def reportIsNotFound : Except ApiError ReportDoc → Bool
  | .error e => e.isNotFound
  | .ok _ => false

/-- A storage state holding the default catalog. -/
def DBseed : DB :=
  { DB0 with tests := DEFAULT_TESTS }

/-- A storage state whose single booking refers to a user that is absent,
while a report for the booking does exist. -/
def DBorphan : DB :=
  { DB0 with
      bookings := [⟨"1", "u1", "CBC", 0, none, none, "booked", "pending", some 20⟩],
      reports := [⟨"1", "CBC", none, none⟩] }

/-- A storage state with a booking, its owner holding PIN 1234, and a stored
report for the booking. -/
def DBpin : DB :=
  { DB0 with
      bookings := [⟨"1", "u1", "CBC", 0, none, none, "booked", "pending", some 20⟩],
      users := [⟨"u1", "Asha", "asha@example.com", none, "user", some "1234", true⟩],
      reports := [⟨"1", "CBC", none, none⟩] }

/-- The CBC entry of the default catalog. -/
def tCBC : TestDoc :=
  ⟨"Complete Blood Count", "CBC", "Hematology", 20.0, none, some "No fasting required"⟩

/-- A structured-booking message whose payload lacks every field, so the
fromisoformat step fails. -/
def msgParseFail : ChatMsg :=
  ⟨some "u1", "hello", some "book_test", some ⟨none, none, none, none⟩⟩

/-- A structured-booking message whose payload parses but names a test code
outside the catalog. -/
def msgBadCode : ChatMsg :=
  ⟨some "u1", "hello", some "book_test",
   some ⟨some "u1", some "XYZ", some "2024-01-01T10:00", none⟩⟩

/-! Helper lemmas. -/

lemma logUserD_tests (msg : ChatMsg) (d : DB) : (logUserD msg d).tests = d.tests := by
  unfold logUserD createMessageDoc
  split
  · split <;> rfl
  · rfl

lemma logUserD_bookings (msg : ChatMsg) (d : DB) :
    (logUserD msg d).bookings = d.bookings := by
  unfold logUserD createMessageDoc
  split
  · split <;> rfl
  · rfl

lemma logUserD_assistant (msg : ChatMsg) (d : DB) :
    (logUserD msg d).messages.filter (fun m => m.role == "assistant") =
      d.messages.filter (fun m => m.role == "assistant") := by
  unfold logUserD createMessageDoc
  split
  · split
    · rfl
    · simp [List.filter_append]
  · rfl

lemma bookingsOf_logUser (msg : ChatMsg) (st : Option DB) :
    bookingsOf (logUser msg st) = bookingsOf st := by
  cases st <;> simp [logUser, bookingsOf, logUserD_bookings]

lemma assistantLog_logUser (msg : ChatMsg) (st : Option DB) :
    assistantLog (logUser msg st) = assistantLog st := by
  cases st <;> simp [logUser, assistantLog, messagesOf, logUserD_assistant]

lemma directSuggested_eq_union (t : String) :
    directSuggested t =
    (if strContains t "dizzy" then ({"CBC", "IRON"} : Finset String) else ∅) ∪
    (if strContains t "fever" then ({"CBC", "CRP"} : Finset String) else ∅) ∪
    (if strContains t "fatigue" then ({"IRON", "B12"} : Finset String) else ∅) ∪
    (if strContains t "jaundice" then ({"LFT"} : Finset String) else ∅) ∪
    (if strContains t "diabetes" then ({"FBS", "HBA1C"} : Finset String) else ∅) := by
  unfold directSuggested
  simp only [SYMPTOM_TO_TESTS, List.foldl_cons, List.foldl_nil]
  rcases Bool.eq_false_or_eq_true (strContains t "dizzy") with h1 | h1 <;> simp only [h1] <;>
  rcases Bool.eq_false_or_eq_true (strContains t "fever") with h2 | h2 <;> simp only [h2] <;>
  rcases Bool.eq_false_or_eq_true (strContains t "fatigue") with h3 | h3 <;> simp only [h3] <;>
  rcases Bool.eq_false_or_eq_true (strContains t "jaundice") with h4 | h4 <;> simp only [h4] <;>
  rcases Bool.eq_false_or_eq_true (strContains t "diabetes") with h5 | h5 <;> simp only [h5] <;>
  decide

lemma heurSuggested_empty_eq_union (t : String) :
    heurSuggested t ∅ =
    (if strContains t "tired" || strContains t "weak" then
      ({"CBC", "IRON", "B12"} : Finset String) else ∅) ∪
    (if strContains t "fever" || strContains t "cold" || strContains t "cough" then
      ({"CBC", "CRP"} : Finset String) else ∅) ∪
    (if strContains t "yellow" then ({"LFT"} : Finset String) else ∅) ∪
    (if strContains t "sugar" then ({"FBS", "HBA1C"} : Finset String) else ∅) := by
  unfold heurSuggested
  rcases Bool.eq_false_or_eq_true (strContains t "tired" || strContains t "weak") with h1 | h1 <;>
    simp only [h1] <;>
  rcases Bool.eq_false_or_eq_true
      (strContains t "fever" || strContains t "cold" || strContains t "cough") with h2 | h2 <;>
    simp only [h2] <;>
  rcases Bool.eq_false_or_eq_true (strContains t "yellow") with h3 | h3 <;> simp only [h3] <;>
  rcases Bool.eq_false_or_eq_true (strContains t "sugar") with h4 | h4 <;> simp only [h4] <;>
  decide

lemma seed_foldl_tests (l : List TestDoc) (d : DB) :
    (l.foldl createTestDoc d).tests = d.tests ++ l := by
  induction l generalizing d with
  | nil => simp
  | cons t l ih => simp [List.foldl_cons, createTestDoc, ih]

/-! Claim theorems. -/

/-- C1: for every chat message whose lower-cased text contains the substring
report together with view or show, the dispatcher returns the action-required
verify_pin reply with the PIN prompt message, regardless of any other content
of the text, of the caller-supplied intent or payload, and of the storage
state: the report-access branch is evaluated first and wins. -/
theorem chat_report_access_first (parseIso : String → Option Nat)
    (fmtDate : Nat → String) (msg : ChatMsg) (st : Option DB)
    (hr : strContains (pyLower msg.text) "report" = true)
    (hv : strContains (pyLower msg.text) "view" = true ∨
          strContains (pyLower msg.text) "show" = true) :
    (chat parseIso fmtDate msg st).1 =
      .ok (Reply.actionRequired "verify_pin"
        "Please enter your 4-digit PIN to access your reports.") := by
  have hc : reportIntent (pyLower msg.text) = true := by
    unfold reportIntent
    rcases hv with h | h <;> simp [hr, h]
  simp [chat, chatDispatch, hc]

/-- C1 witness: a message saying show my report, carrying a book_test intent
and a full booking payload, still gets the PIN prompt. -/
theorem chat_report_access_first_witness :
    (chat (fun _ => none) (fun _ => "")
        ⟨some "u1", "Show my report", some "book_test",
         some ⟨some "u1", some "CBC", some "2024-01-01T10:00", none⟩⟩ (some DBseed)).1 =
      .ok (Reply.actionRequired "verify_pin"
        "Please enter your 4-digit PIN to access your reports.") :=
  chat_report_access_first _ _ _ _ (by decide) (Or.inr (by decide))

/-- C2: the symptom classifier agrees with the reference definition built
from the spec wording, and a text containing both dizzy and fever yields
exactly the set CBC, IRON, CRP. -/
theorem symptom_classifier_matches_spec :
    (∀ text, symptomTests (pyLower text) = symptomTestsSpec text) ∧
    symptomTests (pyLower "I feel dizzy and have a fever") = {"CBC", "IRON", "CRP"} := by
  constructor
  · intro raw
    simp only [symptomTests, symptomTestsSpec]
    rw [directSuggested_eq_union]
    generalize (if strContains (pyLower raw) "dizzy" then ({"CBC", "IRON"} : Finset String) else ∅) ∪
      (if strContains (pyLower raw) "fever" then ({"CBC", "CRP"} : Finset String) else ∅) ∪
      (if strContains (pyLower raw) "fatigue" then ({"IRON", "B12"} : Finset String) else ∅) ∪
      (if strContains (pyLower raw) "jaundice" then ({"LFT"} : Finset String) else ∅) ∪
      (if strContains (pyLower raw) "diabetes" then ({"FBS", "HBA1C"} : Finset String) else ∅) = U
    by_cases hD : U = ∅
    · subst hD
      by_cases hg : (SECONDARY_KEYWORDS.any fun k => strContains (pyLower raw) k) = true
      · simp [hg, heurSuggested_empty_eq_union]
      · simp [hg]
    · simp [hD]
  · decide

/-- C3: in the structured-booking branch, a payload parse failure surfaces as
BadRequest with no booking created and no assistant message logged, and a
create_booking NotFound for an unknown test code surfaces to the chat caller
as BadRequest, not NotFound, again with no booking created. -/
theorem chat_structured_booking_errors :
    (∀ (parseIso : String → Option Nat) (fmtDate : Nat → String) (msg : ChatMsg)
        (p : Payload) (st : Option DB) (e : String),
      reportIntent (pyLower msg.text) = false →
      msg.intent = some "book_test" → msg.payload = some p →
      parsePayload parseIso p = .error e →
      (chat parseIso fmtDate msg st).1 = .error (.badRequest e) ∧
      bookingsOf (chat parseIso fmtDate msg st).2 = bookingsOf st ∧
      assistantLog (chat parseIso fmtDate msg st).2 = assistantLog st) ∧
    (∀ (parseIso : String → Option Nat) (fmtDate : Nat → String) (msg : ChatMsg)
        (p : Payload) (d : DB) (cb : CreateBooking),
      reportIntent (pyLower msg.text) = false →
      msg.intent = some "book_test" → msg.payload = some p →
      parsePayload parseIso p = .ok cb →
      d.tests.find? (fun t => t.code == cb.test_code) = none →
      (chat parseIso fmtDate msg (some d)).1 = .error (.badRequest "Test not found") ∧
      (∀ s, (chat parseIso fmtDate msg (some d)).1 ≠ .error (.notFound s)) ∧
      bookingsOf (chat parseIso fmtDate msg (some d)).2 = bookingsOf (some d)) := by
  constructor
  · intro parseIso fmtDate msg p st e hrep hint hpay hparse
    have h1 : chat parseIso fmtDate msg st = (.error (.badRequest e), logUser msg st) := by
      simp [chat, chatDispatch, hrep, hint, hpay, chatBook, hparse]
    rw [h1]
    exact ⟨rfl, bookingsOf_logUser msg st, assistantLog_logUser msg st⟩
  · intro parseIso fmtDate msg p d cb hrep hint hpay hparse hfind
    have hfind2 : (logUserD msg d).tests.find? (fun t => t.code == cb.test_code) = none := by
      rw [logUserD_tests]; exact hfind
    have h1 : chat parseIso fmtDate msg (some d) =
        (.error (.badRequest "Test not found"), some (logUserD msg d)) := by
      simp [chat, chatDispatch, hrep, hint, hpay, chatBook, hparse, logUser,
        create_booking, hfind2, ApiError.detail]
    rw [h1]
    refine ⟨rfl, ?_, ?_⟩
    · intro s h; simp at h
    · simp [bookingsOf, logUserD_bookings]

/-- C3 witness: a payload with no fields fails the fromisoformat step and the
turn aborts with BadRequest, bookings and assistant log untouched; a parsed
payload naming the unknown code XYZ aborts with BadRequest as well. -/
theorem chat_structured_booking_errors_witness :
    ((chat (fun _ => none) (fun _ => "") msgParseFail (some DBseed)).1 =
        .error (.badRequest "fromisoformat: argument must be str") ∧
      bookingsOf (chat (fun _ => none) (fun _ => "") msgParseFail (some DBseed)).2 =
        bookingsOf (some DBseed) ∧
      assistantLog (chat (fun _ => none) (fun _ => "") msgParseFail (some DBseed)).2 =
        assistantLog (some DBseed)) ∧
    ((chat (fun _ => some 0) (fun _ => "") msgBadCode (some DBseed)).1 =
        .error (.badRequest "Test not found") ∧
      (∀ s, (chat (fun _ => some 0) (fun _ => "") msgBadCode (some DBseed)).1 ≠
        .error (.notFound s)) ∧
      bookingsOf (chat (fun _ => some 0) (fun _ => "") msgBadCode (some DBseed)).2 =
        bookingsOf (some DBseed)) :=
  ⟨chat_structured_booking_errors.1 (fun _ => none) (fun _ => "") msgParseFail
      ⟨none, none, none, none⟩ (some DBseed) "fromisoformat: argument must be str"
      (by decide) rfl rfl rfl,
   chat_structured_booking_errors.2 (fun _ => some 0) (fun _ => "") msgBadCode
      ⟨some "u1", some "XYZ", some "2024-01-01T10:00", none⟩ DBseed
      ⟨"u1", "XYZ", 0, none, none⟩ (by decide) rfl rfl rfl rfl⟩

/-- C4 counterexample: with the booking present but its owning user absent,
view_report fails Unauthorized with the Invalid PIN detail, not NotFound. -/
theorem view_report_missing_user_counterexample :
    view_report ⟨"1", "1234"⟩ (some DBorphan) = .error (.unauthorized "Invalid PIN") ∧
    reportIsNotFound (view_report ⟨"1", "1234"⟩ (some DBorphan)) = false := by
  exact ⟨rfl, rfl⟩

/-- C4 amended: when the referenced booking exists but the user it names does
not, the report gate fails Unauthorized with the Invalid PIN detail (the
same error as a PIN mismatch), not NotFound. -/
theorem view_report_missing_user (d : DB) (p : ViewReport) (b : BookingDoc)
    (hb : d.bookings.find? (fun x => x.id == p.booking_id) = some b)
    (hu : d.users.find? (fun x => x.id == b.user_id) = none) :
    view_report p (some d) = .error (.unauthorized "Invalid PIN") := by
  simp [view_report, hb, hu]

/-- C4 witness: the amended statement at the concrete orphaned booking. -/
theorem view_report_missing_user_witness :
    view_report ⟨"1", "9999"⟩ (some DBorphan) = .error (.unauthorized "Invalid PIN") :=
  view_report_missing_user DBorphan ⟨"1", "9999"⟩
    ⟨"1", "u1", "CBC", 0, none, none, "booked", "pending", some 20⟩ rfl rfl

/-- C5: when the booking and its owner exist but the supplied PIN differs
from the stored PIN as strings, view_report fails Unauthorized, for every
storage state and in particular independent of whether a report exists for
the booking; the report lookup is never consulted. -/
theorem view_report_pin_mismatch (d : DB) (p : ViewReport) (b : BookingDoc) (u : UserDoc)
    (hb : d.bookings.find? (fun x => x.id == p.booking_id) = some b)
    (hu : d.users.find? (fun x => x.id == b.user_id) = some u)
    (hpin : pyStr u.pin ≠ p.pin) :
    view_report p (some d) = .error (.unauthorized "Invalid PIN") := by
  simp [view_report, hb, hu, hpin]

/-- C5 witness: wrong PIN on a booking that does have a stored report. -/
theorem view_report_pin_mismatch_witness :
    view_report ⟨"1", "0000"⟩ (some DBpin) = .error (.unauthorized "Invalid PIN") :=
  view_report_pin_mismatch DBpin ⟨"1", "0000"⟩
    ⟨"1", "u1", "CBC", 0, none, none, "booked", "pending", some 20⟩
    ⟨"u1", "Asha", "asha@example.com", none, "user", some "1234", true⟩
    rfl rfl (by decide)

/-- C6: with storage available and the test code in the catalog,
create_booking returns the generated identifier and appends exactly one
booking document whose price is the catalog price snapshot (never null),
with status booked and payment_status pending. -/
theorem create_booking_snapshots_price (d : DB) (cb : CreateBooking) (t : TestDoc)
    (h : d.tests.find? (fun x => x.code == cb.test_code) = some t) :
    create_booking cb (some d) =
      (.ok ⟨Nat.repr d.nextId, "Booking created"⟩,
       some { d with
                bookings := d.bookings ++ [mkBookingDoc d.nextId cb (some t.price)],
                nextId := d.nextId + 1 }) ∧
    (mkBookingDoc d.nextId cb (some t.price)).status = "booked" ∧
    (mkBookingDoc d.nextId cb (some t.price)).payment_status = "pending" ∧
    (mkBookingDoc d.nextId cb (some t.price)).price = some t.price := by
  refine ⟨?_, rfl, rfl, rfl⟩
  simp [create_booking, h]

/-- C6 witness: booking CBC on the seeded catalog snapshots the price 20. -/
theorem create_booking_snapshots_price_witness :
    create_booking ⟨"u1", "CBC", 0, none, none⟩ (some DBseed) =
      (.ok ⟨Nat.repr DBseed.nextId, "Booking created"⟩,
       some { DBseed with
                bookings := DBseed.bookings ++
                  [mkBookingDoc DBseed.nextId ⟨"u1", "CBC", 0, none, none⟩ (some tCBC.price)],
                nextId := DBseed.nextId + 1 }) ∧
    (mkBookingDoc DBseed.nextId ⟨"u1", "CBC", 0, none, none⟩ (some tCBC.price)).price =
      some tCBC.price :=
  ⟨(create_booking_snapshots_price DBseed ⟨"u1", "CBC", 0, none, none⟩ tCBC rfl).1,
   (create_booking_snapshots_price DBseed ⟨"u1", "CBC", 0, none, none⟩ tCBC rfl).2.2.2⟩

/-- C7: with storage available and the test code absent from the catalog,
create_booking fails NotFound and the storage state is returned unchanged:
no booking document is created. -/
theorem create_booking_unknown_code (d : DB) (cb : CreateBooking)
    (h : d.tests.find? (fun x => x.code == cb.test_code) = none) :
    create_booking cb (some d) = (.error (.notFound "Test not found"), some d) := by
  simp [create_booking, h]

/-- C7 witness: booking the unknown code XYZ on the seeded catalog. -/
theorem create_booking_unknown_code_witness :
    create_booking ⟨"u1", "XYZ", 0, none, none⟩ (some DBseed) =
      (.error (.notFound "Test not found"), some DBseed) :=
  create_booking_unknown_code DBseed ⟨"u1", "XYZ", 0, none, none⟩ rfl

/-- C8 counterexample: an unmatched promo code at the negative price -1
yields total 0, not the input price: the code clamps the total at zero. -/
theorem apply_promo_negative_price_counterexample :
    apply_promo ⟨"SAVE", -1⟩ none = ⟨0, 0, "No promo applied"⟩ ∧ (0 : ℚ) ≠ -1 := by
  constructor
  · have h1 : (pyUpper (pyStrip "SAVE") == "NEWUSER10") = false := by decide
    have h2 : (pyUpper (pyStrip "SAVE") == "MEMBER5") = false := by decide
    have hmax : max ((-1 : ℚ) - 0) 0 = 0 := by rw [max_eq_right (by norm_num)]
    simp [apply_promo, h1, h2, promoLookup, hmax]
  · norm_num

/-- C8 amended: NEWUSER10 on price 100 yields discount 10 and total 90,
MEMBER5 on price 100 yields discount 5 and total 95, both for every storage
state, so the hardcoded codes always take precedence over stored promos; any
other code with no matching active stored promo yields discount 0, message
No promo applied, and total max(price, 0), which equals the input price
whenever the price is nonnegative. -/
theorem apply_promo_behavior :
    (∀ st : Option DB, apply_promo ⟨"NEWUSER10", 100⟩ st =
      ⟨10, 90, "New user 10% discount applied"⟩) ∧
    (∀ st : Option DB, apply_promo ⟨"MEMBER5", 100⟩ st =
      ⟨5, 95, "Membership 5% discount applied"⟩) ∧
    (∀ (st : Option DB) (code : String) (price : ℚ),
      pyUpper (pyStrip code) ≠ "NEWUSER10" → pyUpper (pyStrip code) ≠ "MEMBER5" →
      promoLookup st (pyUpper (pyStrip code)) = none →
      apply_promo ⟨code, price⟩ st = ⟨0, max price 0, "No promo applied"⟩) := by
  refine ⟨?_, ?_, ?_⟩
  · intro st
    have hc : (pyUpper (pyStrip "NEWUSER10") == "NEWUSER10") = true := by decide
    have hr : pyRound2 ((100 : ℚ) * 0.10) = 10 := by norm_num [pyRound2, roundHalfEven]
    have hmax : max ((100 : ℚ) - 10) 0 = 90 := by rw [max_eq_left (by norm_num)]; norm_num
    simp [apply_promo, hc, hr, hmax]
  · intro st
    have hc1 : (pyUpper (pyStrip "MEMBER5") == "NEWUSER10") = false := by decide
    have hc2 : (pyUpper (pyStrip "MEMBER5") == "MEMBER5") = true := by decide
    have hr : pyRound2 ((100 : ℚ) * 0.05) = 5 := by norm_num [pyRound2, roundHalfEven]
    have hmax : max ((100 : ℚ) - 5) 0 = 95 := by rw [max_eq_left (by norm_num)]; norm_num
    simp [apply_promo, hc1, hc2, hr, hmax]
  · intro st code price h1 h2 h3
    simp [apply_promo, h1, h2, h3]

/-- C8 witness: the three promo outcomes at concrete inputs. -/
theorem apply_promo_behavior_witness :
    apply_promo ⟨"NEWUSER10", 100⟩ none = ⟨10, 90, "New user 10% discount applied"⟩ ∧
    apply_promo ⟨"MEMBER5", 100⟩ none = ⟨5, 95, "Membership 5% discount applied"⟩ ∧
    apply_promo ⟨"SAVE20", 50⟩ none = ⟨0, max 50 0, "No promo applied"⟩ :=
  ⟨apply_promo_behavior.1 none, apply_promo_behavior.2.1 none,
   apply_promo_behavior.2.2 none "SAVE20" 50 (by decide) (by decide) rfl⟩

/-- C9: the catalog-seed guard is idempotent on every storage state, and it
preserves duplicate-freeness of the test codes: seeding happens only from
the empty test collection and inserts the duplicate-free default catalog. -/
theorem ensure_seed_tests_idempotent :
    (∀ st, ensure_seed_tests (ensure_seed_tests st) = ensure_seed_tests st) ∧
    (∀ st, ((testsOf st).map TestDoc.code).Nodup →
      ((testsOf (ensure_seed_tests st)).map TestDoc.code).Nodup) := by
  have hlen : ∀ d : DB, ((DEFAULT_TESTS.foldl createTestDoc d).tests.length == 0) = false := by
    intro d
    rw [seed_foldl_tests]
    simp [DEFAULT_TESTS]
  constructor
  · intro st
    cases st with
    | none => rfl
    | some d =>
      rcases Bool.eq_false_or_eq_true (d.tests.length == 0) with h | h
      · simp [ensure_seed_tests, h, hlen d]
      · simp [ensure_seed_tests, h]
  · intro st hnd
    cases st with
    | none => exact hnd
    | some d =>
      rcases Bool.eq_false_or_eq_true (d.tests.length == 0) with h | h
      · have hnil : d.tests = [] := List.length_eq_zero.mp (by simpa using h)
        simp [ensure_seed_tests, h, testsOf, seed_foldl_tests, hnil]
        decide
      · simpa [ensure_seed_tests, h, testsOf] using hnd

/-- C9 witness: seeding the empty state twice equals seeding it once, and the
seeded catalog has duplicate-free codes. -/
theorem ensure_seed_tests_idempotent_witness :
    ensure_seed_tests (ensure_seed_tests (some DB0)) = ensure_seed_tests (some DB0) ∧
    ((testsOf (ensure_seed_tests (some DB0))).map TestDoc.code).Nodup :=
  ⟨ensure_seed_tests_idempotent.1 (some DB0),
   ensure_seed_tests_idempotent.2 (some DB0) (by decide)⟩

/-- C10: keyword detection is raw substring containment on the lower-cased
text, not word-boundary matching: the text Preview my reports triggers the
report-access branch because report and view occur as substrings, and a text
containing painting counts as containing the secondary keyword pain. -/
theorem keyword_matching_is_substring :
    (chat (fun _ => none) (fun _ => "") ⟨none, "Preview my reports", none, none⟩ none).1 =
      .ok (Reply.actionRequired "verify_pin"
        "Please enter your 4-digit PIN to access your reports.") ∧
    strContains (pyLower "I was painting all day") "pain" = true ∧
    (SECONDARY_KEYWORDS.any fun k => strContains (pyLower "I was painting all day") k) = true := by
  exact ⟨rfl, rfl, rfl⟩
